import Mathlib

/-!
Verification development for the aroma-link home-automation integration.

The Python source is embedded shallowly: coordinator state becomes Lean
structures, every network call becomes a function from the parsed HTTP
response (and the pre-state) to the post-state and the returned result,
and each registered service handler becomes a function from its inputs
and the registry state to the new state plus a list of emitted effects
(HTTP commands, scheduled callbacks, fired events, log lines).

Numeric conventions: the vendor API's second counts (durations, remaining
times, counters, status codes) are nonnegative integers and are modelled
as Nat; wall-clock / monotonic timestamps and the float accumulator
`_accumulated_work_seconds` are modelled as Rat.
-/

namespace AromaLink

/-! ### Authentication session manager (AromaLinkAuthCoordinator) -/

/-- Session state owned by `AromaLinkAuthCoordinator`: the cached session
token (`self.jsessionid`, `None` before any login), and the epoch time of
the last successful login (`self._last_login_time`, initially 0). -/
structure AuthState where
  jsessionid : Option String
  lastLoginTime : ℚ
deriving Repr, DecidableEq

/-- Python's `tok.startswith("temp_")`, computed on the character list so
that it evaluates by kernel reduction. -/
def startsWithTemp (tok : String) : Bool :=
  List.isPrefixOf "temp_".data tok.data

/-- The staleness test of `_ensure_login`:
`self.jsessionid is None or self.jsessionid.startswith("temp_") or session_age > 1200`
where `session_age = current_time - self._last_login_time`. -/
def needsLogin (s : AuthState) (currentTime : ℚ) : Bool :=
  match s.jsessionid with
  | none => true
  | some tok => startsWithTemp tok || decide (currentTime - s.lastLoginTime > 1200)

/-- `AromaLinkAuthCoordinator._ensure_login`.  When the staleness test
fires it calls `_login()`; the outcome of that network call is supplied
as the oracle `loginToken` (`some tok` when `_login` succeeds and stores
`tok` with a fresh timestamp, `none` when `_login` returns falsy, in
which case `_ensure_login` raises `UpdateFailed`).  When the test does
not fire the session state is untouched and `True` is returned.  The
Bool in the result records whether a network login was performed. -/
def ensureLogin (s : AuthState) (currentTime : ℚ) (loginToken : Option String) :
    Except String (AuthState × Bool) :=
  if needsLogin s currentTime then
    match loginToken with
    | some tok => .ok ({ jsessionid := some tok, lastLoginTime := currentTime }, true)
    | none => .error "Authentication failed, cannot update auth state."
  else
    .ok (s, false)

/-! ### Device coordinator (AromaLinkDeviceCoordinator): state -/

/-- Parsed `data` object of `/device/deviceInfo/now/{id}` (vendor JSON;
every field may be absent, mirroring `dict.get`). -/
structure DeviceData where
  onOff : Option ℕ
  fan : Option ℕ
  workStatus : Option ℕ
  pumpCount : Option ℕ
  workRemainTime : Option ℕ
  pauseRemainTime : Option ℕ
  workSec : Option ℕ
  pauseSec : Option ℕ
  runCount : Option ℕ
deriving Repr, DecidableEq

/-- One entry of `self._oil_events`: `(timestamp, event_type, details)`. -/
structure OilEvent where
  timestamp : String
  kind : String
  details : String
deriving Repr, DecidableEq

/-- `self._oil_calibration` dictionary. -/
structure OilCalibration where
  bottle_capacity : ℚ
  fill_volume : ℚ
  measured_remaining : ℚ
  usage_rate : Option ℚ
  calibrated : Bool
  calibration_runtime : ℚ
deriving Repr, DecidableEq

/-- The mutable fields of `AromaLinkDeviceCoordinator` that the oil
tracking/calibration subsystem reads and writes, plus the coordinator's
last poll snapshot `self.data` (`none` models both `None` and `{}`, the
falsy cases of `if self.data:`). -/
structure CoordState where
  oil_tracking_active : Bool
  oil_tracking_start_time : Option ℚ
  baseline_pump_count : Option ℕ
  accumulated_work_seconds : ℚ
  completed_cycles : ℕ
  prev_device_on : Bool
  prev_work_status : ℕ
  prev_work_remain : ℕ
  prev_pause_remain : ℕ
  prev_work_duration : ℕ
  prev_pause_duration : ℕ
  oil_events : List OilEvent
  oil_calibration : OilCalibration
  data : Option DeviceData
  work_duration : ℕ
  pause_duration : ℕ
deriving Repr, DecidableEq

/-- `_log_oil_event`: append `(timestamp, event_type, details)` and keep
only the last 50 entries. -/
def logOilEvent (events : List OilEvent) (e : OilEvent) : List OilEvent :=
  let l := events ++ [e]
  if l.length > 50 then l.drop (l.length - 50) else l

/-- Detection cases 3a/3b/3c of `update_oil_tracking` (the inner
`elif` chain run when the device was on and remains on).  Result:
`(cycle_completed, work_seconds_to_add, oil_events)`. -/
def detectCycle3 (s : CoordState)
    (work_status work_remain pause_remain : ℕ) (ts : String) :
    Bool × ℕ × List OilEvent :=
  if s.prev_work_status = 2 ∧ work_status = 1 then
    (true, s.prev_work_duration, logOilEvent s.oil_events
      ⟨ts, "CYCLE", "Work transition. +" ++ toString s.prev_work_duration ++ "s"⟩)
  else if work_status = 2 ∧ work_remain > s.prev_work_remain + 2 then
    if s.prev_work_status = 2 then
      (true, s.prev_work_duration, logOilEvent s.oil_events
        ⟨ts, "CYCLE", "workRemain reset " ++ toString s.prev_work_remain ++
          " to " ++ toString work_remain ++ ". +" ++
          toString s.prev_work_duration ++ "s"⟩)
    else (false, 0, s.oil_events)
  else if work_status = 1 ∧ s.prev_work_status = 1 then
    if pause_remain > s.prev_pause_remain + 100 then
      (true, s.prev_work_duration, logOilEvent s.oil_events
        ⟨ts, "CYCLE", "pauseRemain reset " ++ toString s.prev_pause_remain ++
          " to " ++ toString pause_remain ++ ". +" ++
          toString s.prev_work_duration ++ "s"⟩)
    else (false, 0, s.oil_events)
  else (false, 0, s.oil_events)

/-- Detection cases 1/2/3 of `update_oil_tracking` (the outer `if/elif`
chain), including the independent case-3d settings-change log. -/
def detectCycle (s : CoordState) (device_on : Bool)
    (work_status work_remain pause_remain work_duration pause_duration : ℕ)
    (ts : String) : Bool × ℕ × List OilEvent :=
  if s.prev_device_on ∧ ¬ device_on then
    (false, 0, logOilEvent s.oil_events ⟨ts, "OFF", "Device turned off"⟩)
  else if ¬ s.prev_device_on ∧ device_on then
    (false, 0, logOilEvent s.oil_events
      ⟨ts, "ON", "Device turned on. Status=" ++ toString work_status⟩)
  else if s.prev_device_on ∧ device_on then
    let c3 := detectCycle3 s work_status work_remain pause_remain ts
    if work_duration ≠ s.prev_work_duration ∨ pause_duration ≠ s.prev_pause_duration then
      (c3.1, c3.2.1, logOilEvent c3.2.2
        ⟨ts, "SETTINGS", "Changed: work " ++ toString s.prev_work_duration ++
          " to " ++ toString work_duration ++ "s, pause " ++
          toString s.prev_pause_duration ++ " to " ++ toString pause_duration ++ "s"⟩)
    else c3
  else (false, 0, s.oil_events)

/-- `update_oil_tracking(device_on, work_status, work_remain, pause_remain,
work_duration, pause_duration)`.  `ts` stands in for the wall-clock
`HH:MM:SS` timestamp `_log_oil_event` attaches to each entry. -/
def update_oil_tracking (s : CoordState) (device_on : Bool)
    (work_status work_remain pause_remain work_duration pause_duration : ℕ)
    (ts : String) : CoordState :=
  if ¬ s.oil_tracking_active then
    { s with prev_device_on := device_on, prev_work_status := work_status,
             prev_work_remain := work_remain, prev_pause_remain := pause_remain,
             prev_work_duration := work_duration, prev_pause_duration := pause_duration }
  else
    let detection :=
      detectCycle s device_on work_status work_remain pause_remain
        work_duration pause_duration ts
    { s with
      accumulated_work_seconds :=
        if detection.1 then s.accumulated_work_seconds + detection.2.1
        else s.accumulated_work_seconds,
      completed_cycles :=
        if detection.1 then s.completed_cycles + 1 else s.completed_cycles,
      oil_events := detection.2.2,
      prev_device_on := device_on, prev_work_status := work_status,
      prev_work_remain := work_remain, prev_pause_remain := pause_remain,
      prev_work_duration := work_duration, prev_pause_duration := pause_duration }

/-- `get_estimated_oil_remaining`. -/
def get_estimated_oil_remaining (s : CoordState) : Option ℚ :=
  if s.oil_calibration.calibrated = false ∨ s.oil_calibration.usage_rate = none then
    none
  else
    let fill_vol := s.oil_calibration.fill_volume
    let usage_rate := (s.oil_calibration.usage_rate).getD 0
    let runtime := s.accumulated_work_seconds
    let oil_used := runtime * usage_rate
    let remaining := fill_vol - oil_used
    some (max 0 remaining)

/-- `reset_oil_fill`.  `now` models `time.time()`, `ts` the event
timestamp. -/
def reset_oil_fill (s : CoordState) (now : ℚ) (ts : String) : CoordState :=
  let capacity := s.oil_calibration.bottle_capacity
  let s1 := { s with
    oil_calibration := { s.oil_calibration with fill_volume := capacity },
    oil_tracking_active := true,
    oil_tracking_start_time := some now,
    accumulated_work_seconds := 0,
    completed_cycles := 0,
    oil_events := ([] : List OilEvent) }
  let s2 :=
    match s.data with
    | some d => { s1 with baseline_pump_count := some (d.pumpCount.getD 0) }
    | none => s1
  { s2 with oil_events := (logOilEvent s2.oil_events
      ⟨ts, "FILL", "Oil filled to " ++ toString capacity ++ "ml. Tracking reset."⟩) }

/-! ### Device coordinator: vendor responses and control operations -/

/-- One schedule-slot object of the vendor's `/device/workTime` response
(every field may be absent, mirroring `dict.get`). -/
structure VendorSlot where
  enabled : Option ℕ
  startHour : Option String
  endHour : Option String
  workSec : Option ℕ
  pauseSec : Option ℕ
  consistenceLevel : Option ℕ
  settingId : Option ℕ
deriving Repr, DecidableEq

/-- Parsed JSON body of a `/device/workTime/{id}?week={day}` response. -/
structure WorkTimeBody where
  code : Option ℕ
  msg : Option String
  data : Option (List VendorSlot)
deriving Repr, DecidableEq

/-- An HTTP response to a workTime read: status plus parsed body
(`none` models `response.json()` raising). -/
structure WorkTimeResponse where
  status : ℕ
  body : Option WorkTimeBody
deriving Repr, DecidableEq

/-- Parsed JSON body of a `/device/deviceInfo/now/{id}` response. -/
structure StatusBody where
  code : Option ℕ
  msg : Option String
  data : Option DeviceData
deriving Repr, DecidableEq

/-- An HTTP response to the status poll. -/
structure StatusResponse where
  status : ℕ
  body : Option StatusBody
deriving Repr, DecidableEq

/-- One program dictionary produced by `fetch_workset_for_day`. -/
structure ProgramSlot where
  enabled : ℕ
  start_time : String
  end_time : String
  work_sec : ℕ
  pause_sec : ℕ
  level : ℕ
  setting_id : Option ℕ
deriving Repr, DecidableEq

/-- The default program slot used both for padding short vendor responses
and for the empty-data fallback workset. -/
def defaultProgramSlot : ProgramSlot :=
  { enabled := 0, start_time := "00:00", end_time := "23:59",
    work_sec := 10, pause_sec := 120, level := 1, setting_id := none }

/-- Projection of one vendor slot into a program dictionary
(`setting.get(key, default)` for each field). -/
def convertSlot (slot : VendorSlot) : ProgramSlot :=
  { enabled := slot.enabled.getD 0,
    start_time := slot.startHour.getD "00:00",
    end_time := slot.endHour.getD "23:59",
    work_sec := slot.workSec.getD 10,
    pause_sec := slot.pauseSec.getD 120,
    level := slot.consistenceLevel.getD 1,
    setting_id := slot.settingId }

/-- The `while len(workset) < 5: workset.append(default)` padding loop. -/
def padWorkset (ws : List ProgramSlot) : List ProgramSlot :=
  ws ++ List.replicate (5 - ws.length) defaultProgramSlot

/-- Response handling of `fetch_workset_for_day`: given the cached token
and the HTTP response, return the (possibly cleared) token and the result.
The reply is used only when HTTP 200, vendor `code == 200` and a non-empty
`data` list are all present (Python truthiness); other HTTP-200 replies
yield 5 disabled default slots; HTTP 401/403 clears the token and returns
`None`; any other status, or a body-parse exception, returns `None`. -/
def fetch_workset_for_day (tok : Option String) (resp : WorkTimeResponse) :
    Option String × Option (List ProgramSlot) :=
  if resp.status = 200 then
    match resp.body with
    | none => (tok, none)
    | some b =>
      if b.code = some 200 ∧ b.data ≠ none ∧ b.data ≠ some [] then
        (tok, some (padWorkset (((b.data.getD []).take 5).map convertSlot)))
      else
        (tok, some (List.replicate 5 defaultProgramSlot))
  else if resp.status = 401 ∨ resp.status = 403 then
    (none, none)
  else
    (tok, none)

/-- Result dictionary of `fetch_work_time_settings`. -/
structure WorkTimeSettings where
  work_duration : ℕ
  pause_duration : ℕ
  week_day : ℕ
deriving Repr, DecidableEq

/-- Response handling of `fetch_work_time_settings` (legacy single-slot
reader): scans `data` in order for the first slot with `enabled == 1`,
updates the coordinator's stored work/pause durations from it and returns
them; no enabled slot leaves the state unchanged and returns `None`;
HTTP 401/403 clears the token. -/
def fetch_work_time_settings (s : CoordState) (tok : Option String)
    (week_day : ℕ) (resp : WorkTimeResponse) :
    CoordState × Option String × Option WorkTimeSettings :=
  if resp.status = 200 then
    match resp.body with
    | none => (s, tok, none)
    | some b =>
      if b.code = some 200 ∧ b.data ≠ none ∧ b.data ≠ some [] then
        match (b.data.getD []).find? (fun slot => slot.enabled == some 1) with
        | some slot =>
          let s' := { s with
            work_duration := slot.workSec.getD s.work_duration,
            pause_duration := slot.pauseSec.getD s.pause_duration }
          (s', tok, some ⟨s'.work_duration, s'.pause_duration, week_day⟩)
        | none => (s, tok, none)
      else (s, tok, none)
  else if resp.status = 401 ∨ resp.status = 403 then
    (s, none, none)
  else
    (s, tok, none)

/-- Response handling of `turn_on_off` (the request body is
`deviceId`/`onOff`; only the HTTP status decides the outcome): HTTP 200
succeeds and requests a refresh, HTTP 401/403 clears the cached token and
fails, anything else fails. -/
def turn_on_off (tok : Option String) (status : ℕ) : Option String × Bool :=
  if status = 200 then (tok, true)
  else if status = 401 ∨ status = 403 then (none, false)
  else (tok, false)

/-- Response handling of `fan_control` (request body `deviceId`/`fan`);
identical status dispatch to `turn_on_off`. -/
def fan_control (tok : Option String) (status : ℕ) : Option String × Bool :=
  if status = 200 then (tok, true)
  else if status = 401 ∨ status = 403 then (none, false)
  else (tok, false)

/-- One wire-format slot of a `/device/workSet` request body. -/
structure WireSlot where
  startTime : String
  endTime : String
  enabled : ℕ
  consistenceLevel : String
  workDuration : String
  pauseDuration : String
deriving Repr, DecidableEq

/-- The fixed disabled placeholder used for slots 2–5 of `set_scheduler`'s
payload. -/
def schedulerDisabledSlot : WireSlot :=
  { startTime := "00:00", endTime := "24:00", enabled := 0,
    consistenceLevel := "1", workDuration := "10", pauseDuration := "900" }

/-- `/device/workSet` request body. -/
structure WorkSetPayload where
  deviceId : String
  week : List ℕ
  workTimeList : List WireSlot
deriving Repr, DecidableEq

/-- The payload built by `set_scheduler(work_duration, pause_duration,
week_days)`: a missing `week_days` falls back to all 7 days, missing
durations to the coordinator's stored values; slot 1 is enabled with the
string forms of the chosen durations, slots 2–5 are the fixed disabled
placeholder. -/
def set_scheduler_payload (s : CoordState) (deviceId : String)
    (work_duration pause_duration : Option ℕ)
    (week_days : Option (List ℕ)) : WorkSetPayload :=
  let week := week_days.getD [0, 1, 2, 3, 4, 5, 6]
  let w := work_duration.getD s.work_duration
  let p := pause_duration.getD s.pause_duration
  { deviceId := deviceId,
    week := week,
    workTimeList :=
      [{ startTime := "00:00", endTime := "23:59", enabled := 1,
         consistenceLevel := "1", workDuration := toString w,
         pauseDuration := toString p },
       schedulerDisabledSlot, schedulerDisabledSlot,
       schedulerDisabledSlot, schedulerDisabledSlot] }

/-- Response handling of `set_scheduler`; identical status dispatch to
`turn_on_off`. -/
def set_scheduler (tok : Option String) (status : ℕ) : Option String × Bool :=
  if status = 200 then (tok, true)
  else if status = 401 ∨ status = 403 then (none, false)
  else (tok, false)

/-- The disabled filler slot `set_workset` appends when given fewer than
5 slots. -/
def worksetFillerSlot : WireSlot :=
  { startTime := "00:00", endTime := "23:59", enabled := 0,
    consistenceLevel := "1", workDuration := "10", pauseDuration := "120" }

/-- `set_workset`'s force-pad/truncate of the caller-supplied slot list
to exactly 5 entries. -/
def normalizeWorkTimeList (l : List WireSlot) : List WireSlot :=
  if l.length < 5 then l ++ List.replicate (5 - l.length) worksetFillerSlot
  else if l.length > 5 then l.take 5
  else l

/-- Parsed JSON body of a `/device/workSet` response. -/
structure WorkSetRespBody where
  code : Option ℕ
  msg : Option String
deriving Repr, DecidableEq

/-- An HTTP response to a workSet write. -/
structure WorkSetResponse where
  status : ℕ
  body : Option WorkSetRespBody
deriving Repr, DecidableEq

/-- Response handling of `set_workset`: HTTP 200 with vendor `code == 200`
succeeds (and evicts the saved days from the schedule cache before the
refresh, not tracked here); a vendor application error or a body-parse
exception fails; HTTP 401/403 clears the token and fails. -/
def set_workset (tok : Option String) (resp : WorkSetResponse) :
    Option String × Bool :=
  if resp.status = 200 then
    match resp.body with
    | none => (tok, false)
    | some b => if b.code = some 200 then (tok, true) else (tok, false)
  else if resp.status = 401 ∨ resp.status = 403 then (none, false)
  else (tok, false)

/-- The snapshot dictionary `_async_update_data` returns on success.  The
`**oil_info` merge of `get_oil_tracking_info()` is represented by the
`oil` field carrying the post-update tracking state. -/
structure Snapshot where
  state : Bool
  onOff : Option ℕ
  fan : ℕ
  fan_state : Bool
  workStatus : ℕ
  workRemainTime : ℕ
  pauseRemainTime : ℕ
  workSec : ℕ
  pauseSec : ℕ
  raw_device_data : DeviceData
  pumpCount : ℕ
  runCount : ℕ
  oil : CoordState
deriving Repr, DecidableEq

/-- `_async_update_data`: response dispatch of the main status poll.  On
HTTP 200 with vendor `code == 200` and a `data` object, the payload is
projected into a `Snapshot` and oil tracking is advanced; a vendor
application error raises `UpdateFailed` with the vendor message
(modelled as `Except.error`); HTTP 401/403 clears the cached token
before raising; any other status raises.  (The blanket
`except` clause that re-wraps each raised message once more is not
tracked.) -/
def async_update_data (s : CoordState) (tok : Option String)
    (resp : StatusResponse) (ts : String) :
    CoordState × Option String × Except String Snapshot :=
  if resp.status = 200 then
    match resp.body with
    | none => (s, tok, .error "Error")
    | some b =>
      match b.data with
      | some d =>
        if b.code = some 200 then
          let is_on := d.onOff = some 1
          let fan_on := d.fan = some 1
          let work_status := d.workStatus.getD 0
          let pump_count := d.pumpCount.getD 0
          let work_remain := d.workRemainTime.getD 0
          let pause_remain := d.pauseRemainTime.getD 0
          let work_duration0 := d.workSec.getD s.prev_work_duration
          let pause_duration := d.pauseSec.getD s.prev_pause_duration
          let work_duration :=
            if work_status = 2 ∧ work_remain > work_duration0 then work_remain
            else work_duration0
          let s' := update_oil_tracking s is_on work_status work_remain
            pause_remain work_duration pause_duration ts
          (s', tok, .ok
            { state := is_on, onOff := d.onOff, fan := d.fan.getD 0,
              fan_state := fan_on, workStatus := work_status,
              workRemainTime := work_remain, pauseRemainTime := pause_remain,
              workSec := work_duration, pauseSec := pause_duration,
              raw_device_data := d, pumpCount := pump_count,
              runCount := d.runCount.getD 0, oil := s' })
        else (s, tok, .error ("API error: " ++ (b.msg.getD "Unknown error")))
      | none => (s, tok, .error ("API error: " ++ (b.msg.getD "Unknown error")))
  else if resp.status = 401 ∨ resp.status = 403 then
    (s, none, .error "Authentication error")
  else
    (s, tok, .error ("Error fetching device info: status " ++ toString resp.status))

/-- Concrete state for exercising the C5 theorem: tracking active, device
previously on and working (status 2) with a 10-second work setting. -/
def c5State : CoordState :=
  { oil_tracking_active := true, oil_tracking_start_time := some 0,
    baseline_pump_count := some 0, accumulated_work_seconds := 0,
    completed_cycles := 0, prev_device_on := true, prev_work_status := 2,
    prev_work_remain := 4, prev_pause_remain := 0, prev_work_duration := 10,
    prev_pause_duration := 120, oil_events := [],
    oil_calibration := ⟨100, 100, 0, none, false, 0⟩, data := none,
    work_duration := 10, pause_duration := 900 }

/-- Concrete state for exercising the C9 theorem: tracking active, device
previously on and working with 9 seconds of work remaining. -/
def c9State : CoordState :=
  { oil_tracking_active := true, oil_tracking_start_time := some 0,
    baseline_pump_count := some 0, accumulated_work_seconds := 20,
    completed_cycles := 2, prev_device_on := true, prev_work_status := 2,
    prev_work_remain := 9, prev_pause_remain := 0, prev_work_duration := 10,
    prev_pause_duration := 120, oil_events := [],
    oil_calibration := ⟨100, 100, 0, none, false, 0⟩, data := none,
    work_duration := 10, pause_duration := 900 }

/-- Calibrated profile state (rate 0.12 ml/s, 600 s runtime, 100 ml fill). -/
def c7State : CoordState :=
  { oil_tracking_active := true, oil_tracking_start_time := some 0,
    baseline_pump_count := some 0, accumulated_work_seconds := 600,
    completed_cycles := 60, prev_device_on := false, prev_work_status := 0,
    prev_work_remain := 0, prev_pause_remain := 0, prev_work_duration := 10,
    prev_pause_duration := 120, oil_events := [],
    oil_calibration := ⟨100, 100, 40, some (12/100), true, 500⟩, data := none,
    work_duration := 10, pause_duration := 900 }

/-- Uncalibrated profile state. -/
def c7bState : CoordState :=
  { c7State with oil_calibration := ⟨100, 100, 0, none, false, 0⟩ }

/-! ### Bootstrap and service registry (custom_components __init__) -/

/-- Modelled from the spec: `AromaLinkDeviceCoordinator.set_power` is
called by the bootstrap module's timed-run logic but is absent from the
coordinator source file; per the spec it is treated as equivalent to
`turn_on_off`.  `turn_on_off` awaits `_ensure_login` outside its own
`try` block, so a failed login propagates the typed `UpdateFailed`
signal to the caller (`Except.error` here), while everything after it —
the HTTP call and its status dispatch — is trapped to a Bool.  The
awaited outcome of a `set_power` call is therefore an exception or a
Bool. -/
def set_power (auth : AuthState) (currentTime : ℚ) (loginToken : Option String)
    (status : ℕ) : Except String (Option String × Bool) :=
  match ensureLogin auth currentTime loginToken with
  | .error e => .error e
  | .ok (auth', _) => .ok (turn_on_off auth'.jsessionid status)

/-- One record of the `timed_runs` table:
`{"cancel_callback": fn, "end_time": timestamp, "duration_hours": h}`.
The cancellation callback is modelled by an opaque handle number. -/
structure TimedRunRecord where
  cancelHandle : ℕ
  endTime : ℚ
  durationHours : ℚ
deriving Repr, DecidableEq

/-- Externally visible steps a service handler performs: coordinator
calls, timer management, event-bus fires and log lines.  Writes into
legacy helper entities are abstracted as one effect. -/
inductive Effect where
  | cancelTimer (handle : ℕ)
  | callSetScheduler (device : String) (work_duration pause_duration : Option ℕ)
      (week_days : Option (List ℕ))
  | callSetPower (device : String) (powerOn : Bool)
  | scheduleTurnOff (device : String) (delaySeconds : ℚ) (handle : ℕ)
  | fireEvent (name : String) (device : String)
  | callFetchWorkset (device : String) (week_day : ℕ)
  | writeHelperEntities (device : String) (week_day : ℕ)
  | callRunDiffuser (device : String) (work_duration pause_duration : Option ℕ)
  | callSetWorkset (device : String) (week_days : List ℕ)
      (work_time_list : List WireSlot)
  | callRefreshSchedule (device : String) (week_day : ℕ)
  | setEditorProgram (device : String) (week_day program : ℕ)
  | callFetchAllSchedules (device : String)
  | callApiRequest (device : String)
  | callResetOilTracking (device : String) (pump_count : Option ℕ)
  | fireStatusEvent (status : List (String × ℤ × ℚ))
  | logError (msg : String)
  | logWarning (msg : String)
deriving Repr, DecidableEq

/-- `timed_runs[device_id]` lookup. -/
def findRun (runs : List (String × TimedRunRecord)) (dev : String) :
    Option TimedRunRecord :=
  (runs.find? (fun p => p.1 == dev)).map Prod.snd

/-- `del timed_runs[device_id]` (a no-op when the key is absent, matching
the guarded delete). -/
def removeRun (runs : List (String × TimedRunRecord)) (dev : String) :
    List (String × TimedRunRecord) :=
  runs.filter (fun p => p.1 != dev)

/-- The device-resolution pattern shared by the service handlers:
`if device_id and device_id in device_coordinators:` use it (Python
truthiness: `None` and `""` are falsy); `elif len(device_coordinators)
== 1:` use the sole configured device; `else:` no device resolves.
`coords` lists the configured device ids in insertion order. -/
def resolveDevice (deviceId : Option String) (coords : List String) :
    Option String :=
  match deviceId with
  | some s =>
    if s ≠ "" ∧ s ∈ coords then some s
    else if coords.length = 1 then coords.head?
    else none
  | none => if coords.length = 1 then coords.head? else none

/-- Python's `a or b` on an optional int (`None` and `0` are falsy). -/
def pyOrNat (o : Option ℕ) (fallback : ℕ) : ℕ :=
  match o with
  | some n => if n = 0 then fallback else n
  | none => fallback

/-- Python truthiness of an optional int. -/
def truthyNat (o : Option ℕ) : Bool :=
  match o with
  | some n => decide (n ≠ 0)
  | none => false

/-- `start_timed_run_service`: resolves a device, cancels any existing
timer for it, optionally applies work/pause settings via `set_scheduler`
inside a warn-and-continue `try` (falling back to the coordinator's
last-poll `workRemainTime` / `pauseRemainTime` or 5/900; when
`coordinator.data` is `None` that fallback access raises), then awaits
`coordinator.set_power(True)` inside a `try` whose `except` logs an
error and returns — `powerOutcome` is the awaited outcome of that call
(see `set_power`: an `Except.error` when its `_ensure_login` raises).
Only when the power call does not raise does the service schedule the
deferred turn-off after `duration_hours * 3600` seconds, record the
timed run, and fire the start event.  `newHandle` names the freshly
created cancellation callback, `now` is `hass.loop.time()`. -/
def start_timed_run_service (coords : List String)
    (runs : List (String × TimedRunRecord)) (deviceId : Option String)
    (durationHours : ℚ) (workSec pauseSec : Option ℕ)
    (coordData : Option DeviceData) (powerOutcome : Except String Bool)
    (now : ℚ) (newHandle : ℕ) :
    List (String × TimedRunRecord) × List Effect :=
  match resolveDevice deviceId coords with
  | none => (runs, [Effect.logError "Multiple devices available, must specify device_id"])
  | some dev =>
    let cancelEffects :=
      match findRun runs dev with
      | some r => [Effect.cancelTimer r.cancelHandle]
      | none => []
    let runs1 := removeRun runs dev
    let schedEffects :=
      if workSec.isSome ∨ pauseSec.isSome then
        match coordData with
        | some d =>
          [Effect.callSetScheduler dev
            (some (pyOrNat workSec (d.workRemainTime.getD 5)))
            (some (pyOrNat pauseSec (d.pauseRemainTime.getD 900))) none]
        | none =>
          if truthyNat workSec ∧ truthyNat pauseSec then
            [Effect.callSetScheduler dev (some (workSec.getD 0))
              (some (pauseSec.getD 0)) none]
          else [Effect.logWarning "Failed to set work/pause for timed run"]
      else []
    match powerOutcome with
    | .error _ =>
      (runs1,
        cancelEffects ++ schedEffects ++
          [Effect.callSetPower dev true,
           Effect.logError "Failed to turn on device for timed run"])
    | .ok _ =>
      let durationSeconds := durationHours * 3600
      let endTime := now + durationSeconds
      let runs2 := runs1 ++ [(dev, ⟨newHandle, endTime, durationHours⟩)]
      (runs2,
        cancelEffects ++ schedEffects ++
          [Effect.callSetPower dev true,
           Effect.scheduleTurnOff dev durationSeconds newHandle,
           Effect.fireEvent "aroma_link_integration_timed_run_started" dev])

/-- `set_scheduler_service`: resolves a device and forwards the requested
durations and week days to that coordinator's `set_scheduler`; with no
resolvable device it logs the must-specify error and does nothing. -/
def set_scheduler_service (coords : List String) (deviceId : Option String)
    (work_duration pause_duration : Option ℕ) (week_days : List ℕ) :
    List Effect :=
  match resolveDevice deviceId coords with
  | some dev => [Effect.callSetScheduler dev work_duration pause_duration (some week_days)]
  | none => [Effect.logError "Multiple devices available, must specify device_id"]

/-- `load_workset_service`: resolves a device, fetches that day's workset
from it and writes the five programs into the legacy helper entities
(abstracted as one effect; `fetchResult` is the value
`fetch_workset_for_day` came back with); with no resolvable device it
logs the must-specify error and does nothing. -/
def load_workset_service (coords : List String) (deviceId : Option String)
    (week_day : ℕ) (fetchResult : Option (List ProgramSlot)) : List Effect :=
  match resolveDevice deviceId coords with
  | none => [Effect.logError "Multiple devices available, must specify device_id"]
  | some dev =>
    Effect.callFetchWorkset dev week_day ::
      (if fetchResult = none ∨ fetchResult = some [] then
        [Effect.logError "Failed to load workset"]
      else
        [Effect.writeHelperEntities dev week_day])

/-- `run_diffuser_service`: resolves a device and forwards the requested
durations to that coordinator's `run_diffuser`; otherwise the
must-specify error. -/
def run_diffuser_service (coords : List String) (deviceId : Option String)
    (work_duration pause_duration : Option ℕ) : List Effect :=
  match resolveDevice deviceId coords with
  | some dev => [Effect.callRunDiffuser dev work_duration pause_duration]
  | none => [Effect.logError "Multiple devices available, must specify device_id"]

/-- `save_workset_service`: resolves a device, reads the legacy helper
entities into a 5-slot list (supplied here as `work_time_list`) and saves
it via `set_workset`; `saveResult` is that call's Bool outcome.  With no
resolvable device it logs the must-specify error and does nothing. -/
def save_workset_service (coords : List String) (deviceId : Option String)
    (week_days : List ℕ) (work_time_list : List WireSlot)
    (saveResult : Bool) : List Effect :=
  match resolveDevice deviceId coords with
  | none => [Effect.logError "Multiple devices available, must specify device_id"]
  | some dev =>
    Effect.callSetWorkset dev week_days work_time_list ::
      (if saveResult then [] else [Effect.logError "Failed to save workset"])

/-- `set_editor_program_service`: resolves a device, refreshes the day's
schedule and moves the editor cursor; otherwise the must-specify error. -/
def set_editor_program_service (coords : List String)
    (deviceId : Option String) (day program : ℕ) : List Effect :=
  match resolveDevice deviceId coords with
  | some dev => [Effect.callRefreshSchedule dev day,
                 Effect.setEditorProgram dev day program]
  | none => [Effect.logError "Multiple devices available, must specify device_id"]

/-- `refresh_all_schedules_service`: resolves a device and triggers its
7-day parallel fetch; otherwise the must-specify error. -/
def refresh_all_schedules_service (coords : List String)
    (deviceId : Option String) : List Effect :=
  match resolveDevice deviceId coords with
  | some dev => [Effect.callFetchAllSchedules dev]
  | none => [Effect.logError "Multiple devices available, must specify device_id"]

/-- `api_diagnostics_service`: resolves a device (same pattern, phrased
as `if coordinator is None:` in the source) and proxies the request
through that coordinator's `api_request` (url/method/params and the
optional response log and event are not tracked); otherwise the
must-specify error. -/
def api_diagnostics_service (coords : List String)
    (deviceId : Option String) : List Effect :=
  match resolveDevice deviceId coords with
  | some dev => [Effect.callApiRequest dev]
  | none => [Effect.logError "Multiple devices available, must specify device_id"]

/-- `reset_oil_runtime_service`: resolves a device, reads the last-poll
pump count from `coordinator.data` and calls `reset_oil_tracking` with
it, then fires the reset event; otherwise the must-specify error. -/
def reset_oil_runtime_service (coords : List String)
    (deviceId : Option String) (coordData : Option DeviceData) : List Effect :=
  match resolveDevice deviceId coords with
  | some dev =>
    let pump : Option ℕ :=
      match coordData with
      | some d => some (d.pumpCount.getD 0)
      | none => none
    [Effect.callResetOilTracking dev pump,
     Effect.fireEvent "aroma_link_integration_oil_runtime_reset" dev]
  | none => [Effect.logError "Multiple devices available, must specify device_id"]

/-- `get_timed_run_status_service`: performs no device resolution at all —
it walks the timed-run table (skipping entries other than a truthy
supplied `device_id`), computes each timer's remaining whole seconds,
and always fires a status event; it never logs the must-specify error.
`now` is `hass.loop.time()`. -/
def get_timed_run_status_service (runs : List (String × TimedRunRecord))
    (deviceId : Option String) (now : ℚ) :
    List (String × ℤ × ℚ) × List Effect :=
  let kept := runs.filter (fun p =>
    match deviceId with
    | some d => if d ≠ "" then p.1 == d else true
    | none => true)
  let status := kept.map (fun p =>
    (p.1, ⌊max 0 (p.2.endTime - now)⌋, p.2.durationHours))
  (status, [Effect.fireStatusEvent status])

/-- `cancel_timed_run_service`: falls back to the sole configured device
only when `device_id` is falsy; with a truthy id (known or not) it skips
resolution entirely, so an unknown supplied id reaches the
"No timed run active" warning instead of the must-specify error.  A
found timer is cancelled, removed and a cancel event fired. -/
def cancel_timed_run_service (coords : List String)
    (runs : List (String × TimedRunRecord)) (deviceId : Option String) :
    List (String × TimedRunRecord) × List Effect :=
  let did : Option String :=
    match deviceId with
    | none => if coords.length = 1 then coords.head? else none
    | some s =>
      if s = "" then (if coords.length = 1 then coords.head? else none)
      else some s
  match did with
  | none => (runs, [Effect.logError "Multiple devices available, must specify device_id"])
  | some dev =>
    match findRun runs dev with
    | none => (runs, [Effect.logWarning ("No timed run active for device " ++ dev)])
    | some r =>
      (removeRun runs dev,
        [Effect.cancelTimer r.cancelHandle,
         Effect.fireEvent "aroma_link_integration_timed_run_cancelled" dev])

/-- Concrete state for exercising `reset_oil_fill`: calibrated profile,
partially used fill, accumulated runtime and a nonempty event log. -/
def c10State : CoordState :=
  { oil_tracking_active := true, oil_tracking_start_time := some 0,
    baseline_pump_count := some 40, accumulated_work_seconds := 300,
    completed_cycles := 30, prev_device_on := true, prev_work_status := 1,
    prev_work_remain := 0, prev_pause_remain := 60, prev_work_duration := 10,
    prev_pause_duration := 120, oil_events := [⟨"11:00:00", "RESET", "Started tracking."⟩],
    oil_calibration := ⟨100, 64, 40, some (12/100), true, 500⟩,
    data := some ⟨some 1, some 0, some 1, some 55, some 0, some 60, some 10,
      some 120, some 7⟩, work_duration := 10, pause_duration := 900 }

end AromaLink

open AromaLink

/-- C2: `_ensure_login` performs a network login if and only if the stored
session token is `None`, starts with `"temp_"`, or the elapsed time since
the last successful login exceeds 1200 seconds; in every other state the
call is a no-op on the session state, and a failed login raises the typed
authentication-failed signal. -/
theorem C2_ensure_login_policy (s : AuthState) (currentTime : ℚ) (loginToken : Option String) :
    (∀ s' didLogin, ensureLogin s currentTime loginToken = .ok (s', didLogin) →
      (didLogin = true ↔
        s.jsessionid = none ∨
        (∃ tok, s.jsessionid = some tok ∧ startsWithTemp tok = true) ∨
        currentTime - s.lastLoginTime > 1200))
    ∧ (¬ (s.jsessionid = none ∨
          (∃ tok, s.jsessionid = some tok ∧ startsWithTemp tok = true) ∨
          currentTime - s.lastLoginTime > 1200) →
        ensureLogin s currentTime loginToken = .ok (s, false))
    ∧ ((s.jsessionid = none ∨
          (∃ tok, s.jsessionid = some tok ∧ startsWithTemp tok = true) ∨
          currentTime - s.lastLoginTime > 1200) → loginToken = none →
        ensureLogin s currentTime loginToken = .error
          "Authentication failed, cannot update auth state.") := by
  have hiff : needsLogin s currentTime = true ↔
      (s.jsessionid = none ∨
        (∃ tok, s.jsessionid = some tok ∧ startsWithTemp tok = true) ∨
        currentTime - s.lastLoginTime > 1200) := by
    unfold needsLogin
    cases h : s.jsessionid with
    | none => simp
    | some tok =>
      simp only [Bool.or_eq_true, decide_eq_true_eq, Option.some.injEq,
        reduceCtorEq, false_or]
      constructor
      · rintro (hp | hgt)
        · exact Or.inl ⟨tok, rfl, hp⟩
        · exact Or.inr hgt
      · rintro (⟨tok', htok', hp⟩ | hgt)
        · exact Or.inl (htok' ▸ hp)
        · exact Or.inr hgt
  refine ⟨?_, ?_, ?_⟩
  · intro s' didLogin hok
    unfold ensureLogin at hok
    by_cases hneed : needsLogin s currentTime
    · rw [if_pos hneed] at hok
      cases loginToken with
      | none => exact absurd hok (by simp)
      | some tok =>
        simp only [Except.ok.injEq, Prod.mk.injEq] at hok
        rw [← hok.2]
        simpa using hiff.mp hneed
    · rw [if_neg hneed] at hok
      simp only [Except.ok.injEq, Prod.mk.injEq] at hok
      rw [← hok.2]
      simp only [Bool.false_eq_true, false_iff]
      intro hc
      exact hneed (hiff.mpr hc)
  · intro hnot
    have hneed : needsLogin s currentTime = false := by
      by_contra h
      exact hnot (hiff.mp (by revert h; cases needsLogin s currentTime <;> simp))
    unfold ensureLogin
    rw [hneed]
    simp
  · intro hc hnone
    have hneed : needsLogin s currentTime = true := hiff.mpr hc
    unfold ensureLogin
    rw [hneed, hnone]
    simp

/-- Witness for C2 at concrete states: a fresh genuine token (age 100 s) is a
no-op, and a placeholder token with a failing login raises the typed error. -/
theorem C2_ensure_login_policy_witness :
    ensureLogin ⟨some "ABCDEF", 1000⟩ 1100 (some "NEW") = .ok (⟨some "ABCDEF", 1000⟩, false)
    ∧ ensureLogin ⟨some "temp_login_success_1.0", 0⟩ 10 none = .error
        "Authentication failed, cannot update auth state." := by
  constructor
  · refine (C2_ensure_login_policy ⟨some "ABCDEF", 1000⟩ 1100 (some "NEW")).2.1 ?_
    rintro (h | ⟨tok, htok, hp⟩ | h)
    · exact absurd h (by simp)
    · have htok' : tok = "ABCDEF" := by
        have : some "ABCDEF" = some tok := htok
        injection this with h2
        exact h2.symm
      rw [htok'] at hp
      exact absurd hp (by decide)
    · have h' : (1100 : ℚ) - 1000 > 1200 := h
      norm_num at h'
  · exact (C2_ensure_login_policy ⟨some "temp_login_success_1.0", 0⟩ 10 none).2.2
      (Or.inr (Or.inl ⟨"temp_login_success_1.0", rfl, by decide⟩)) rfl

/-- Helper: however a cycle is detected, the added work-seconds value is
either 0 or the previous sample's work duration. -/
theorem detectCycle3_add_value (s : CoordState)
    (work_status work_remain pause_remain : ℕ) (ts : String) :
    (detectCycle3 s work_status work_remain pause_remain ts).2.1 = 0
    ∨ (detectCycle3 s work_status work_remain pause_remain ts).2.1
        = s.prev_work_duration := by
  unfold detectCycle3
  split_ifs <;> simp

/-- Helper: the added work-seconds value of the full detection chain is
either 0 or the previous sample's work duration. -/
theorem detectCycle_add_value (s : CoordState) (device_on : Bool)
    (work_status work_remain pause_remain work_duration pause_duration : ℕ)
    (ts : String) :
    (detectCycle s device_on work_status work_remain pause_remain
        work_duration pause_duration ts).2.1 = 0
    ∨ (detectCycle s device_on work_status work_remain pause_remain
        work_duration pause_duration ts).2.1 = s.prev_work_duration := by
  unfold detectCycle
  split_ifs <;> simp <;>
    exact detectCycle3_add_value s work_status work_remain pause_remain ts

/-- Helper: detection case 3a — device on in both samples and a
working→pausing status transition — fires and adds the previous work
duration. -/
theorem detectCycle_case_A (s : CoordState)
    (work_remain pause_remain work_duration pause_duration : ℕ) (ts : String)
    (hprevOn : s.prev_device_on = true) (hprevSt : s.prev_work_status = 2) :
    (detectCycle s true 1 work_remain pause_remain work_duration
        pause_duration ts).1 = true
    ∧ (detectCycle s true 1 work_remain pause_remain work_duration
        pause_duration ts).2.1 = s.prev_work_duration := by
  unfold detectCycle detectCycle3
  simp only [hprevOn, hprevSt]
  split_ifs <;> simp_all

/-- Helper: with tracking active, `update_oil_tracking` applies the
detection verdict to the accumulator and the cycle counter. -/
theorem update_oil_tracking_active (s : CoordState) (device_on : Bool)
    (work_status work_remain pause_remain work_duration pause_duration : ℕ)
    (ts : String) (hact : s.oil_tracking_active = true) :
    (update_oil_tracking s device_on work_status work_remain pause_remain
        work_duration pause_duration ts).accumulated_work_seconds
      = (if (detectCycle s device_on work_status work_remain pause_remain
              work_duration pause_duration ts).1 then
          s.accumulated_work_seconds +
            ((detectCycle s device_on work_status work_remain pause_remain
              work_duration pause_duration ts).2.1 : ℚ)
         else s.accumulated_work_seconds)
    ∧ (update_oil_tracking s device_on work_status work_remain pause_remain
        work_duration pause_duration ts).completed_cycles
      = (if (detectCycle s device_on work_status work_remain pause_remain
              work_duration pause_duration ts).1 then
          s.completed_cycles + 1
         else s.completed_cycles) := by
  unfold update_oil_tracking
  simp [hact]

/-- C5: with oil tracking active, when the device is on in both samples and
`work_status` transitions from 2 (previous) to 1 (current),
`update_oil_tracking` adds exactly the previous sample's `work_duration`
to the accumulator and exactly 1 to `completed_cycles`. -/
theorem C5_cycle_work_to_pause (s : CoordState)
    (work_remain pause_remain work_duration pause_duration : ℕ) (ts : String)
    (hact : s.oil_tracking_active = true) (hprevOn : s.prev_device_on = true)
    (hprevSt : s.prev_work_status = 2) :
    (update_oil_tracking s true 1 work_remain pause_remain work_duration
        pause_duration ts).accumulated_work_seconds
      = s.accumulated_work_seconds + (s.prev_work_duration : ℚ)
    ∧ (update_oil_tracking s true 1 work_remain pause_remain work_duration
        pause_duration ts).completed_cycles = s.completed_cycles + 1 := by
  obtain ⟨h1, h2⟩ := detectCycle_case_A s work_remain pause_remain
    work_duration pause_duration ts hprevOn hprevSt
  obtain ⟨ha, hc⟩ := update_oil_tracking_active s true 1 work_remain
    pause_remain work_duration pause_duration ts hact
  rw [ha, hc, h1, h2]
  simp

/-- Witness for C5 at the spec's own example sample pair. -/
theorem C5_cycle_work_to_pause_witness :
    (update_oil_tracking c5State true 1 0 120 10 120
        "12:00:00").accumulated_work_seconds
      = c5State.accumulated_work_seconds + (c5State.prev_work_duration : ℚ)
    ∧ (update_oil_tracking c5State true 1 0 120 10 120
        "12:00:00").completed_cycles = c5State.completed_cycles + 1 :=
  C5_cycle_work_to_pause c5State 0 120 10 120 "12:00:00" rfl rfl rfl

/-- C9: with tracking active, one call to `update_oil_tracking` increases
the accumulator by at most the previous sample's `work_duration` and
`completed_cycles` by at most 1, and the three cycle-detection conditions
(status 2→1 transition, `work_remain` upward jump while working,
`pause_remain` upward jump while pausing) are pairwise incompatible. -/
theorem C9_single_poll_increment_bound (s : CoordState) (device_on : Bool)
    (work_status work_remain pause_remain work_duration pause_duration : ℕ)
    (ts : String) (hact : s.oil_tracking_active = true) :
    (update_oil_tracking s device_on work_status work_remain pause_remain
        work_duration pause_duration ts).accumulated_work_seconds
      ≤ s.accumulated_work_seconds + (s.prev_work_duration : ℚ)
    ∧ (update_oil_tracking s device_on work_status work_remain pause_remain
        work_duration pause_duration ts).completed_cycles ≤ s.completed_cycles + 1
    ∧ ¬ ((s.prev_work_status = 2 ∧ work_status = 1)
          ∧ (work_status = 2 ∧ work_remain > s.prev_work_remain + 2 ∧ s.prev_work_status = 2))
    ∧ ¬ ((s.prev_work_status = 2 ∧ work_status = 1)
          ∧ (work_status = 1 ∧ s.prev_work_status = 1
              ∧ pause_remain > s.prev_pause_remain + 100))
    ∧ ¬ ((work_status = 2 ∧ work_remain > s.prev_work_remain + 2 ∧ s.prev_work_status = 2)
          ∧ (work_status = 1 ∧ s.prev_work_status = 1
              ∧ pause_remain > s.prev_pause_remain + 100)) := by
  obtain ⟨ha, hc⟩ := update_oil_tracking_active s device_on work_status
    work_remain pause_remain work_duration pause_duration ts hact
  have hnn : (0 : ℚ) ≤ (s.prev_work_duration : ℚ) := by positivity
  refine ⟨?_, ?_, ?_, ?_, ?_⟩
  · rw [ha]
    split_ifs with h1
    · rcases detectCycle_add_value s device_on work_status work_remain
          pause_remain work_duration pause_duration ts with h | h <;>
        (rw [h]; try (push_cast; linarith))
    · linarith
  · rw [hc]
    split_ifs <;> omega
  · rintro ⟨⟨-, h1⟩, h2, -⟩; omega
  · rintro ⟨⟨hp, -⟩, -, hp', -⟩; omega
  · rintro ⟨⟨h2, -⟩, h1, -⟩; omega

/-- Witness for C9 at a concrete call (tracking active, no cycle event). -/
theorem C9_single_poll_increment_bound_witness :
    (update_oil_tracking c9State true 2 8 0 10 120
        "12:00:00").accumulated_work_seconds
      ≤ c9State.accumulated_work_seconds + (c9State.prev_work_duration : ℚ)
    ∧ (update_oil_tracking c9State true 2 8 0 10 120
        "12:00:00").completed_cycles ≤ c9State.completed_cycles + 1
    ∧ ¬ ((c9State.prev_work_status = 2 ∧ 2 = 1)
          ∧ (2 = 2 ∧ 8 > c9State.prev_work_remain + 2 ∧ c9State.prev_work_status = 2))
    ∧ ¬ ((c9State.prev_work_status = 2 ∧ 2 = 1)
          ∧ (2 = 1 ∧ c9State.prev_work_status = 1 ∧ 0 > c9State.prev_pause_remain + 100))
    ∧ ¬ ((2 = 2 ∧ 8 > c9State.prev_work_remain + 2 ∧ c9State.prev_work_status = 2)
          ∧ (2 = 1 ∧ c9State.prev_work_status = 1 ∧ 0 > c9State.prev_pause_remain + 100)) :=
  C9_single_poll_increment_bound c9State true 2 8 0 10 120 "12:00:00" rfl

/-- C7: for a calibrated profile with a present usage rate,
`get_estimated_oil_remaining` is `max 0 (fill_volume − usage_rate ×
accumulated_work_seconds)` — hence exactly 0, never negative, once the
linear estimate exceeds the fill volume — and it is `none` whenever the
profile is uncalibrated. -/
theorem C7_estimated_oil_remaining (s : CoordState) :
    (∀ r, s.oil_calibration.calibrated = true → s.oil_calibration.usage_rate = some r →
      get_estimated_oil_remaining s =
          some (max 0 (s.oil_calibration.fill_volume - r * s.accumulated_work_seconds))
        ∧ (r * s.accumulated_work_seconds > s.oil_calibration.fill_volume →
            get_estimated_oil_remaining s = some 0))
    ∧ (∀ q, get_estimated_oil_remaining s = some q → 0 ≤ q)
    ∧ (s.oil_calibration.calibrated = false → get_estimated_oil_remaining s = none) := by
  refine ⟨?_, ?_, ?_⟩
  · intro r hcal hrate
    constructor
    · unfold get_estimated_oil_remaining
      rw [if_neg]
      · simp [hrate, mul_comm]
      · simp [hcal, hrate]
    · intro hgt
      unfold get_estimated_oil_remaining
      rw [if_neg]
      · simp only [hrate, Option.getD_some, Option.some.injEq]
        rw [max_eq_left]
        rw [mul_comm] at hgt
        linarith
      · simp [hcal, hrate]
  · intro q hq
    unfold get_estimated_oil_remaining at hq
    split_ifs at hq with h
    simp only [Option.some.injEq] at hq
    rw [← hq]
    exact le_max_left 0 _
  · intro hcal
    unfold get_estimated_oil_remaining
    rw [if_pos]
    exact Or.inl hcal

/-- Witness for C7: calibrated profile at rate 0.12 ml/s, 600 s of runtime,
fill volume 100 ml; and an uncalibrated profile. -/
theorem C7_estimated_oil_remaining_witness :
    (get_estimated_oil_remaining c7State =
        some (max 0 (c7State.oil_calibration.fill_volume
          - (12/100 : ℚ) * c7State.accumulated_work_seconds))
      ∧ ((12/100 : ℚ) * c7State.accumulated_work_seconds
            > c7State.oil_calibration.fill_volume →
          get_estimated_oil_remaining c7State = some 0))
    ∧ get_estimated_oil_remaining c7bState = none :=
  ⟨(C7_estimated_oil_remaining c7State).1 (12/100) rfl rfl,
    (C7_estimated_oil_remaining c7bState).2.2 rfl⟩

/-- C10 counterexample: at a concrete state the event log after
`reset_oil_fill` is not empty (it holds the freshly logged FILL entry),
so the claim that `reset_oil_fill` zeroes the event log is false as
stated. -/
theorem C10_reset_oil_fill_counterexample :
    (reset_oil_fill c10State 1000 "12:00:00").oil_events ≠ [] := by
  simp [reset_oil_fill, logOilEvent, c10State]

/-- C10 (amended): `reset_oil_fill` sets the profile's `fill_volume` to
`bottle_capacity` and leaves every other calibration field unchanged
(so an existing calibration survives a refill), zeroes the runtime
accumulator and completed-cycle count, and resets the event log so that
it contains only the newly logged FILL entry. -/
theorem C10_reset_oil_fill_frame (s : CoordState) (now : ℚ) (ts : String) :
    (reset_oil_fill s now ts).oil_calibration.fill_volume
        = s.oil_calibration.bottle_capacity
    ∧ (reset_oil_fill s now ts).oil_calibration.bottle_capacity
        = s.oil_calibration.bottle_capacity
    ∧ (reset_oil_fill s now ts).oil_calibration.measured_remaining
        = s.oil_calibration.measured_remaining
    ∧ (reset_oil_fill s now ts).oil_calibration.usage_rate
        = s.oil_calibration.usage_rate
    ∧ (reset_oil_fill s now ts).oil_calibration.calibrated
        = s.oil_calibration.calibrated
    ∧ (reset_oil_fill s now ts).oil_calibration.calibration_runtime
        = s.oil_calibration.calibration_runtime
    ∧ (reset_oil_fill s now ts).accumulated_work_seconds = 0
    ∧ (reset_oil_fill s now ts).completed_cycles = 0
    ∧ (reset_oil_fill s now ts).oil_events
        = [⟨ts, "FILL", "Oil filled to " ++
            toString s.oil_calibration.bottle_capacity ++ "ml. Tracking reset."⟩] := by
  unfold reset_oil_fill logOilEvent
  cases hd : s.data <;> simp [hd]

/-- C3: every control operation (`turn_on_off`, `fan_control`,
`set_scheduler`, `set_workset`, `fetch_workset_for_day`,
`fetch_work_time_settings`) and the main poll, on receiving HTTP 401 or
403, clears the cached session token (sets it to `None`) as it returns
its failure result, so the next dependent `_ensure_login` performs a
login. -/
theorem C3_auth_error_clears_token (tok : Option String) (status : ℕ)
    (s : CoordState) (wb : Option WorkTimeBody) (sb : Option StatusBody)
    (pb : Option WorkSetRespBody) (week_day : ℕ) (ts : String)
    (hstatus : status = 401 ∨ status = 403) :
    turn_on_off tok status = (none, false)
    ∧ fan_control tok status = (none, false)
    ∧ set_scheduler tok status = (none, false)
    ∧ set_workset tok ⟨status, pb⟩ = (none, false)
    ∧ fetch_workset_for_day tok ⟨status, wb⟩ = (none, none)
    ∧ fetch_work_time_settings s tok week_day ⟨status, wb⟩ = (s, none, none)
    ∧ async_update_data s tok ⟨status, sb⟩ ts = (s, none, .error "Authentication error")
    ∧ (∀ (t : ℚ) (now : ℚ), needsLogin ⟨none, t⟩ now = true) := by
  rcases hstatus with h | h <;> subst h <;>
    exact ⟨rfl, rfl, rfl, rfl, rfl, rfl, rfl, fun t now => rfl⟩

/-- Witness for C3 at concrete inputs: a 401 on the power switch and a 403
on the poll both clear a live token. -/
theorem C3_auth_error_clears_token_witness :
    turn_on_off (some "SESSID1") 401 = (none, false)
    ∧ async_update_data c5State (some "SESSID2") ⟨403, none⟩ "12:00:00"
        = (c5State, none, .error "Authentication error") :=
  ⟨(C3_auth_error_clears_token (some "SESSID1") 401 c5State none none none 0
      "12:00:00" (Or.inl rfl)).1,
   (C3_auth_error_clears_token (some "SESSID2") 403 c5State none none none 0
      "12:00:00" (Or.inr rfl)).2.2.2.2.2.2.1⟩

/-- C4: for an HTTP-200 vendor reply with `code == 200` carrying between 0
and 10 schedule slots (a missing or empty `data` list counting as 0),
`fetch_workset_for_day` returns exactly 5 slots: the vendor slots beyond
the fifth are truncated from the end and any shortfall is padded with the
default slot (enabled 0, 00:00–23:59, work 10 s, pause 120 s, level 1). -/
theorem C4_fetch_workset_five_slots (tok : Option String) (b : WorkTimeBody)
    (hcode : b.code = some 200) (hlen : (b.data.getD []).length ≤ 10) :
    (fetch_workset_for_day tok ⟨200, some b⟩).2
      = some ((((b.data.getD []).take 5).map convertSlot)
          ++ List.replicate (5 - (b.data.getD []).length) defaultProgramSlot)
    ∧ (∀ ws, (fetch_workset_for_day tok ⟨200, some b⟩).2 = some ws →
        ws.length = 5)
    ∧ defaultProgramSlot =
        ⟨0, "00:00", "23:59", 10, 120, 1, none⟩ := by
  have hmain : (fetch_workset_for_day tok ⟨200, some b⟩).2
      = some ((((b.data.getD []).take 5).map convertSlot)
          ++ List.replicate (5 - (b.data.getD []).length) defaultProgramSlot) := by
    unfold fetch_workset_for_day padWorkset
    rcases hdata : b.data with _ | (_ | ⟨slot, rest⟩)
    · simp [hdata]
    · simp [hdata]
    · simp [hdata, hcode, List.length_take]
      omega
  refine ⟨hmain, ?_, rfl⟩
  intro ws hws
  rw [hmain] at hws
  have hws' : ws = (((b.data.getD []).take 5).map convertSlot)
      ++ List.replicate (5 - (b.data.getD []).length) defaultProgramSlot :=
    (Option.some.inj hws).symm
  subst hws'
  simp only [List.length_append, List.length_map, List.length_take,
    List.length_replicate]
  omega

/-- Witness for C4 on a concrete 7-slot vendor reply (truncated to 5). -/
theorem C4_fetch_workset_five_slots_witness :
    (fetch_workset_for_day (some "SESSID3")
        ⟨200, some ⟨some 200, none, some (List.replicate 7
          (⟨some 1, some "08:00", some "20:00", some 30, some 300, some 2,
            some 77⟩ : VendorSlot))⟩⟩).2
      = some (((List.replicate 7
            (⟨some 1, some "08:00", some "20:00", some 30, some 300, some 2,
              some 77⟩ : VendorSlot)).take 5).map convertSlot
          ++ List.replicate (5 - (List.replicate 7
              (⟨some 1, some "08:00", some "20:00", some 30, some 300, some 2,
                some 77⟩ : VendorSlot)).length) defaultProgramSlot) :=
  (C4_fetch_workset_five_slots (some "SESSID3")
    ⟨some 200, none, some (List.replicate 7
      ⟨some 1, some "08:00", some "20:00", some 30, some 300, some 2, some 77⟩)⟩
    rfl (by decide)).1

/-- C6: for every `set_scheduler` input the generated `workTimeList` has
exactly 5 entries; entry 0 is enabled (enabled 1) with `workDuration` and
`pauseDuration` the string forms of the requested (or coordinator-stored
default) values; entries 1–4 are the fixed disabled placeholder with
`workDuration` "10", `pauseDuration` "900" and enabled 0. -/
theorem C6_set_scheduler_payload_shape (s : CoordState) (deviceId : String)
    (work_duration pause_duration : Option ℕ) (week_days : Option (List ℕ)) :
    ((set_scheduler_payload s deviceId work_duration pause_duration
        week_days).workTimeList).length = 5
    ∧ ((set_scheduler_payload s deviceId work_duration pause_duration
        week_days).workTimeList)[0]?
      = some { startTime := "00:00", endTime := "23:59", enabled := 1,
               consistenceLevel := "1",
               workDuration := toString (work_duration.getD s.work_duration),
               pauseDuration := toString (pause_duration.getD s.pause_duration) }
    ∧ ((set_scheduler_payload s deviceId work_duration pause_duration
        week_days).workTimeList)[1]? = some schedulerDisabledSlot
    ∧ ((set_scheduler_payload s deviceId work_duration pause_duration
        week_days).workTimeList)[2]? = some schedulerDisabledSlot
    ∧ ((set_scheduler_payload s deviceId work_duration pause_duration
        week_days).workTimeList)[3]? = some schedulerDisabledSlot
    ∧ ((set_scheduler_payload s deviceId work_duration pause_duration
        week_days).workTimeList)[4]? = some schedulerDisabledSlot
    ∧ schedulerDisabledSlot.workDuration = "10"
    ∧ schedulerDisabledSlot.pauseDuration = "900"
    ∧ schedulerDisabledSlot.enabled = 0 :=
  ⟨rfl, rfl, rfl, rfl, rfl, rfl, rfl, rfl, rfl⟩

/-- Helper: looking a device up in the timed-run table right after its
entry was removed and the new record appended yields the new record. -/
theorem findRun_remove_append (runs : List (String × TimedRunRecord))
    (dev : String) (r : TimedRunRecord) :
    findRun (removeRun runs dev ++ [(dev, r)]) dev = some r := by
  induction runs with
  | nil => simp [findRun, removeRun]
  | cons p t ih =>
    by_cases h : p.1 = dev
    · simpa [removeRun, List.filter_cons, h] using ih
    · simpa [removeRun, List.filter_cons, h, findRun, List.find?_cons,
        beq_iff_eq] using ih

/-- Helper: after its entry is removed, a device is no longer found in the
timed-run table. -/
theorem findRun_remove (runs : List (String × TimedRunRecord)) (dev : String) :
    findRun (removeRun runs dev) dev = none := by
  induction runs with
  | nil => rfl
  | cons p t ih =>
    by_cases h : p.1 = dev
    · simpa [removeRun, List.filter_cons, h] using ih
    · simpa [removeRun, List.filter_cons, h, findRun, List.find?_cons,
        beq_iff_eq] using ih

/-- Helper: a supplied, non-empty, known device id resolves to itself. -/
theorem resolveDevice_matched (coords : List String) (dev : String)
    (hne : dev ≠ "") (hmem : dev ∈ coords) :
    resolveDevice (some dev) coords = some dev := by
  simp [resolveDevice, hne, hmem]

/-- Helper: with exactly one configured device and no usable supplied id,
resolution falls back to the sole device. -/
theorem resolveDevice_single (deviceId : Option String) (dev : String)
    (hnm : ¬ ∃ d, deviceId = some d ∧ d ≠ "" ∧ d ∈ [dev]) :
    resolveDevice deviceId [dev] = some dev := by
  cases deviceId with
  | none => simp [resolveDevice]
  | some s =>
    have hcond : ¬ (s ≠ "" ∧ s ∈ [dev]) := fun hc => hnm ⟨s, rfl, hc.1, hc.2⟩
    simp [resolveDevice, hcond]

/-- Helper: with two or more configured devices and no usable supplied id,
no device resolves. -/
theorem resolveDevice_unresolved (deviceId : Option String)
    (coords : List String)
    (hnm : ¬ ∃ d, deviceId = some d ∧ d ≠ "" ∧ d ∈ coords)
    (hlen : 2 ≤ coords.length) :
    resolveDevice deviceId coords = none := by
  have hl : coords.length ≠ 1 := by omega
  cases deviceId with
  | none => simp [resolveDevice, hl]
  | some s =>
    have hcond : ¬ (s ≠ "" ∧ s ∈ coords) := fun hc => hnm ⟨s, rfl, hc.1, hc.2⟩
    simp [resolveDevice, hcond, hl]

/-- C1 counterexample: `set_power` (the spec's stated equivalent of
`turn_on_off`) raises the typed authentication-failed signal when its
leading `_ensure_login` fails, and on that reachable outcome the
`start_timed_run` action — after already cancelling the existing timer —
logs an error and returns early: the completed invocation leaves no
Timed-Run Record in the table, schedules no turn-off and fires no start
event, so the claim's unconditional postconditions are false as
stated. -/
theorem C1_start_timed_run_counterexample :
    set_power ⟨some "temp_login_success_1.0", 0⟩ 10 none 200
      = .error "Authentication failed, cannot update auth state."
    ∧ findRun (start_timed_run_service ["7701"] [("7701", ⟨3, 500, 1⟩)] none 6
        none none none
        (.error "Authentication failed, cannot update auth state.")
        1000 9).1 "7701" = none
    ∧ (start_timed_run_service ["7701"] [("7701", ⟨3, 500, 1⟩)] none 6
        none none none
        (.error "Authentication failed, cannot update auth state.")
        1000 9).2
      = [Effect.cancelTimer 3, Effect.callSetPower "7701" true,
         Effect.logError "Failed to turn on device for timed run"] := by
  refine ⟨?_, ?_, ?_⟩ <;> rfl

/-- C1 (amended): whenever `start_timed_run` resolves a device and its
`set_power(True)` call returns without raising (see `set_power`: its
`_ensure_login` raises on login failure), the completed action has
turned that device on and scheduled a deferred turn-off firing
`duration_hours * 3600` seconds later, the timed-run table holds a
record for the device carrying the new cancellation handle, the end
time `now + duration_hours * 3600` and the requested duration, any
pre-existing timer for the device was cancelled first, and supplied
work/pause settings were forwarded to `set_scheduler`; when the power
call raises, the action logs the failure and completes with no record
for the device, no scheduled turn-off and no start event. -/
theorem C1_start_timed_run (coords : List String)
    (runs : List (String × TimedRunRecord)) (deviceId : Option String)
    (durationHours : ℚ) (workSec pauseSec : Option ℕ)
    (coordData : Option DeviceData) (powerOutcome : Except String Bool)
    (now : ℚ) (newHandle : ℕ) (dev : String)
    (hres : resolveDevice deviceId coords = some dev) :
    (∀ b, powerOutcome = .ok b →
      findRun (start_timed_run_service coords runs deviceId durationHours
          workSec pauseSec coordData powerOutcome now newHandle).1 dev
        = some ⟨newHandle, now + durationHours * 3600, durationHours⟩
      ∧ Effect.callSetPower dev true
          ∈ (start_timed_run_service coords runs deviceId durationHours
              workSec pauseSec coordData powerOutcome now newHandle).2
      ∧ Effect.scheduleTurnOff dev (durationHours * 3600) newHandle
          ∈ (start_timed_run_service coords runs deviceId durationHours
              workSec pauseSec coordData powerOutcome now newHandle).2
      ∧ Effect.fireEvent "aroma_link_integration_timed_run_started" dev
          ∈ (start_timed_run_service coords runs deviceId durationHours
              workSec pauseSec coordData powerOutcome now newHandle).2
      ∧ (∀ r, findRun runs dev = some r →
          Effect.cancelTimer r.cancelHandle
            ∈ (start_timed_run_service coords runs deviceId durationHours
                workSec pauseSec coordData powerOutcome now newHandle).2)
      ∧ (∀ d0, coordData = some d0 → (workSec.isSome ∨ pauseSec.isSome) →
          Effect.callSetScheduler dev
              (some (pyOrNat workSec (d0.workRemainTime.getD 5)))
              (some (pyOrNat pauseSec (d0.pauseRemainTime.getD 900))) none
            ∈ (start_timed_run_service coords runs deviceId durationHours
                workSec pauseSec coordData powerOutcome now newHandle).2))
    ∧ (∀ e, powerOutcome = .error e →
      findRun (start_timed_run_service coords runs deviceId durationHours
          workSec pauseSec coordData powerOutcome now newHandle).1 dev = none
      ∧ Effect.scheduleTurnOff dev (durationHours * 3600) newHandle
          ∉ (start_timed_run_service coords runs deviceId durationHours
              workSec pauseSec coordData powerOutcome now newHandle).2
      ∧ Effect.fireEvent "aroma_link_integration_timed_run_started" dev
          ∉ (start_timed_run_service coords runs deviceId durationHours
              workSec pauseSec coordData powerOutcome now newHandle).2
      ∧ Effect.logError "Failed to turn on device for timed run"
          ∈ (start_timed_run_service coords runs deviceId durationHours
              workSec pauseSec coordData powerOutcome now newHandle).2) := by
  constructor
  · rintro b rfl
    unfold start_timed_run_service
    rw [hres]
    refine ⟨findRun_remove_append runs dev _, ?_, ?_, ?_, ?_, ?_⟩
    · simp
    · simp
    · simp
    · intro r hr
      simp [hr]
    · intro d0 hd0 hws
      simp [hd0, hws]
  · rintro e rfl
    unfold start_timed_run_service
    rw [hres]
    refine ⟨findRun_remove runs dev, ?_, ?_, ?_⟩
    · rcases hfr : findRun runs dev with _ | r <;>
        rcases hcd : coordData with _ | d <;>
          simp [hfr, hcd] <;> split_ifs <;> simp
    · rcases hfr : findRun runs dev with _ | r <;>
        rcases hcd : coordData with _ | d <;>
          simp [hfr, hcd] <;> split_ifs <;> simp
    · simp

/-- Witness for C1: single configured device "7701" with an existing
timed run; the service is invoked without a device id, a 6-hour duration
and a successful power call. -/
theorem C1_start_timed_run_witness :
    (∀ b, (.ok true : Except String Bool) = .ok b →
      findRun (start_timed_run_service ["7701"] [("7701", ⟨3, 500, 1⟩)] none 6
          none none none (.ok true) 1000 9).1 "7701"
        = some ⟨9, 1000 + 6 * 3600, 6⟩
      ∧ Effect.callSetPower "7701" true
          ∈ (start_timed_run_service ["7701"] [("7701", ⟨3, 500, 1⟩)] none 6
              none none none (.ok true) 1000 9).2
      ∧ Effect.scheduleTurnOff "7701" (6 * 3600) 9
          ∈ (start_timed_run_service ["7701"] [("7701", ⟨3, 500, 1⟩)] none 6
              none none none (.ok true) 1000 9).2
      ∧ Effect.fireEvent "aroma_link_integration_timed_run_started" "7701"
          ∈ (start_timed_run_service ["7701"] [("7701", ⟨3, 500, 1⟩)] none 6
              none none none (.ok true) 1000 9).2
      ∧ (∀ r, findRun [("7701", ⟨3, 500, 1⟩)] "7701" = some r →
          Effect.cancelTimer r.cancelHandle
            ∈ (start_timed_run_service ["7701"] [("7701", ⟨3, 500, 1⟩)] none 6
                none none none (.ok true) 1000 9).2)
      ∧ (∀ d0, (none : Option DeviceData) = some d0 →
          ((none : Option ℕ).isSome ∨ (none : Option ℕ).isSome) →
          Effect.callSetScheduler "7701"
              (some (pyOrNat none (d0.workRemainTime.getD 5)))
              (some (pyOrNat none (d0.pauseRemainTime.getD 900))) none
            ∈ (start_timed_run_service ["7701"] [("7701", ⟨3, 500, 1⟩)] none 6
                none none none (.ok true) 1000 9).2))
    ∧ (∀ e, (.ok true : Except String Bool) = .error e →
      findRun (start_timed_run_service ["7701"] [("7701", ⟨3, 500, 1⟩)] none 6
          none none none (.ok true) 1000 9).1 "7701" = none
      ∧ Effect.scheduleTurnOff "7701" (6 * 3600) 9
          ∉ (start_timed_run_service ["7701"] [("7701", ⟨3, 500, 1⟩)] none 6
              none none none (.ok true) 1000 9).2
      ∧ Effect.fireEvent "aroma_link_integration_timed_run_started" "7701"
          ∉ (start_timed_run_service ["7701"] [("7701", ⟨3, 500, 1⟩)] none 6
              none none none (.ok true) 1000 9).2
      ∧ Effect.logError "Failed to turn on device for timed run"
          ∈ (start_timed_run_service ["7701"] [("7701", ⟨3, 500, 1⟩)] none 6
              none none none (.ok true) 1000 9).2) :=
  C1_start_timed_run ["7701"] [("7701", ⟨3, 500, 1⟩)] none 6 none none none
    (.ok true) 1000 9 "7701" rfl

/-- C8 counterexample: two registered actions violate the claimed
universal resolution rule at concrete inputs.  `get_timed_run_status`,
called with two active timers and no `device_id`, fires a status event
and never logs the must-specify error; `cancel_timed_run`, called with
two configured devices and a supplied unknown `device_id`, logs
"No timed run active" instead of the must-specify error. -/
theorem C8_device_resolution_counterexample :
    (get_timed_run_status_service [("d1", ⟨3, 500, 1⟩), ("d2", ⟨4, 700, 2⟩)]
        none 100).2
      = [Effect.fireStatusEvent [("d1", 400, 1), ("d2", 600, 2)]]
    ∧ Effect.logError "Multiple devices available, must specify device_id"
        ∉ (get_timed_run_status_service [("d1", ⟨3, 500, 1⟩), ("d2", ⟨4, 700, 2⟩)]
            none 100).2
    ∧ (cancel_timed_run_service ["d1", "d2"] [] (some "dx")).2
      = [Effect.logWarning "No timed run active for device dx"]
    ∧ Effect.logError "Multiple devices available, must specify device_id"
        ∉ (cancel_timed_run_service ["d1", "d2"] [] (some "dx")).2 := by
  have h1 : (⌊max 0 ((500 : ℚ) - 100)⌋ : ℤ) = 400 := by norm_num
  have h2 : (⌊max 0 ((700 : ℚ) - 100)⌋ : ℤ) = 600 := by norm_num
  refine ⟨?_, ?_, ?_, ?_⟩
  · simp [get_timed_run_status_service, h1, h2]
  · simp [get_timed_run_status_service]
  · rfl
  · simp [cancel_timed_run_service, findRun]

/-- C8 (amended): every registered action that resolves a device before
calling into a coordinator — `set_scheduler`, `run_diffuser`,
`load_workset`, `save_workset`, `set_editor_program`,
`refresh_all_schedules`, `api_diagnostics`, `reset_oil_runtime` and
`start_timed_run` — follows the shared rule: a supplied, known
`device_id` selects that device's coordinator; otherwise a sole
configured device is selected; otherwise (two or more devices, no
matching id) the handler emits exactly the "must specify device_id"
error log — no coordinator call, no state change.  (The two timed-run
query/cancel actions do not resolve this way; see the
counterexample.) -/
theorem C8_device_resolution (coords : List String) (deviceId : Option String)
    (work_duration pause_duration : Option ℕ) (week_days : List ℕ)
    (week_day : ℕ) (fetchResult : Option (List ProgramSlot))
    (work_time_list : List WireSlot) (saveResult : Bool)
    (day program : ℕ) (coordData : Option DeviceData)
    (runs : List (String × TimedRunRecord)) (durationHours : ℚ)
    (workSec pauseSec : Option ℕ) (powerOutcome : Except String Bool)
    (now : ℚ) (newHandle : ℕ) :
    (∀ dev, deviceId = some dev → dev ≠ "" → dev ∈ coords →
      resolveDevice deviceId coords = some dev)
    ∧ (∀ dev, (¬ ∃ d, deviceId = some d ∧ d ≠ "" ∧ d ∈ coords) → coords = [dev] →
      resolveDevice deviceId coords = some dev)
    ∧ ((¬ ∃ d, deviceId = some d ∧ d ≠ "" ∧ d ∈ coords) → 2 ≤ coords.length →
      resolveDevice deviceId coords = none)
    ∧ (∀ dev, resolveDevice deviceId coords = some dev →
      set_scheduler_service coords deviceId work_duration pause_duration week_days
          = [Effect.callSetScheduler dev work_duration pause_duration (some week_days)]
      ∧ run_diffuser_service coords deviceId work_duration pause_duration
          = [Effect.callRunDiffuser dev work_duration pause_duration]
      ∧ (load_workset_service coords deviceId week_day fetchResult).head?
          = some (Effect.callFetchWorkset dev week_day)
      ∧ (save_workset_service coords deviceId week_days work_time_list
            saveResult).head?
          = some (Effect.callSetWorkset dev week_days work_time_list)
      ∧ set_editor_program_service coords deviceId day program
          = [Effect.callRefreshSchedule dev day,
             Effect.setEditorProgram dev day program]
      ∧ refresh_all_schedules_service coords deviceId
          = [Effect.callFetchAllSchedules dev]
      ∧ api_diagnostics_service coords deviceId = [Effect.callApiRequest dev]
      ∧ (reset_oil_runtime_service coords deviceId coordData).head?
          = some (Effect.callResetOilTracking dev
              (match coordData with
               | some d => some (d.pumpCount.getD 0)
               | none => none))
      ∧ Effect.callSetPower dev true
          ∈ (start_timed_run_service coords runs deviceId durationHours
              workSec pauseSec coordData powerOutcome now newHandle).2)
    ∧ (resolveDevice deviceId coords = none →
      set_scheduler_service coords deviceId work_duration pause_duration week_days
          = [Effect.logError "Multiple devices available, must specify device_id"]
      ∧ run_diffuser_service coords deviceId work_duration pause_duration
          = [Effect.logError "Multiple devices available, must specify device_id"]
      ∧ load_workset_service coords deviceId week_day fetchResult
          = [Effect.logError "Multiple devices available, must specify device_id"]
      ∧ save_workset_service coords deviceId week_days work_time_list saveResult
          = [Effect.logError "Multiple devices available, must specify device_id"]
      ∧ set_editor_program_service coords deviceId day program
          = [Effect.logError "Multiple devices available, must specify device_id"]
      ∧ refresh_all_schedules_service coords deviceId
          = [Effect.logError "Multiple devices available, must specify device_id"]
      ∧ api_diagnostics_service coords deviceId
          = [Effect.logError "Multiple devices available, must specify device_id"]
      ∧ reset_oil_runtime_service coords deviceId coordData
          = [Effect.logError "Multiple devices available, must specify device_id"]
      ∧ start_timed_run_service coords runs deviceId durationHours workSec
            pauseSec coordData powerOutcome now newHandle
          = (runs,
             [Effect.logError "Multiple devices available, must specify device_id"])) := by
  refine ⟨?_, ?_, ?_, ?_, ?_⟩
  · rintro dev rfl hne hmem
    exact resolveDevice_matched coords dev hne hmem
  · rintro dev hnm rfl
    exact resolveDevice_single deviceId dev hnm
  · exact resolveDevice_unresolved deviceId coords
  · intro dev h
    refine ⟨?_, ?_, ?_, ?_, ?_, ?_, ?_, ?_, ?_⟩
    · unfold set_scheduler_service
      rw [h]
    · unfold run_diffuser_service
      rw [h]
    · unfold load_workset_service
      rw [h]
      rfl
    · unfold save_workset_service
      rw [h]
      rfl
    · unfold set_editor_program_service
      rw [h]
    · unfold refresh_all_schedules_service
      rw [h]
    · unfold api_diagnostics_service
      rw [h]
    · unfold reset_oil_runtime_service
      rw [h]
      rfl
    · unfold start_timed_run_service
      rw [h]
      cases powerOutcome <;> simp
  · intro h
    refine ⟨?_, ?_, ?_, ?_, ?_, ?_, ?_, ?_, ?_⟩ <;>
      first
        | (unfold set_scheduler_service; rw [h])
        | (unfold run_diffuser_service; rw [h])
        | (unfold load_workset_service; rw [h])
        | (unfold save_workset_service; rw [h])
        | (unfold set_editor_program_service; rw [h])
        | (unfold refresh_all_schedules_service; rw [h])
        | (unfold api_diagnostics_service; rw [h])
        | (unfold reset_oil_runtime_service; rw [h])
        | (unfold start_timed_run_service; rw [h])

/-- Witness for C8: two configured devices and no supplied id yields the
must-specify error; a supplied known id "d2" resolves and is the call
target. -/
theorem C8_device_resolution_witness :
    resolveDevice (some "d2") ["d1", "d2"] = some "d2"
    ∧ set_scheduler_service ["d1", "d2"] none (some 30) (some 300) [0, 1]
        = [Effect.logError "Multiple devices available, must specify device_id"]
    ∧ run_diffuser_service ["d1", "d2"] none (some 30) (some 300)
        = [Effect.logError "Multiple devices available, must specify device_id"]
    ∧ api_diagnostics_service ["d1", "d2"] (some "d2")
        = [Effect.callApiRequest "d2"]
    ∧ refresh_all_schedules_service ["d1", "d2"] (some "d2")
        = [Effect.callFetchAllSchedules "d2"] := by
  have hA := C8_device_resolution ["d1", "d2"] (some "d2") (some 30) (some 300)
    [0, 1] 0 none [] true 0 1 none [] 6 none none (.ok true) 0 0
  have hB := C8_device_resolution ["d1", "d2"] none (some 30) (some 300)
    [0, 1] 0 none [] true 0 1 none [] 6 none none (.ok true) 0 0
  have h2 : resolveDevice (some "d2") ["d1", "d2"] = some "d2" :=
    hA.1 "d2" rfl (by decide) (by decide)
  have hn : resolveDevice none ["d1", "d2"] = none :=
    hB.2.2.1 (by simp) (by decide)
  exact ⟨h2, (hB.2.2.2.2 hn).1, (hB.2.2.2.2 hn).2.1,
    (hA.2.2.2.1 "d2" h2).2.2.2.2.2.2.1, (hA.2.2.2.1 "d2" h2).2.2.2.2.2.1⟩
